import Mathlib

/-!
Verification of the BAIS onboarding configuration core (stephenbessey/baintegrate):
the form validator (`BAISFormValidator` in assets/js/core/botProtection.js) and the
bidirectional form-data transformer (`FormDataTransformer`).

The validator is embedded over a typed model of the form state (the "well-typed"
configurations the spec talks about); JavaScript truthiness of optional fields is
captured with `Option` (`none` = absent/undefined, and falsy present values such as
`0` or `""` are treated exactly as the `if (x)` / `x || d` expressions of the source do).

The transformer is embedded over a small JSON-like value universe `J`, because the
round-trip claim of the spec is about field *names* (snake_case wire keys versus the
editable camelCase keys), which a typed embedding cannot observe.
-/

namespace BAIS

/-- JSON-like values as handled by the JavaScript transformer.  `undefinedJ` is the
JavaScript `undefined` (a missing object key reads as `undefinedJ`). Numbers are modeled
as integers; every numeric value the verified claims touch is integral. -/
inductive J where
  | undefinedJ : J
  | null : J
  | bool : Bool → J
  | num : Int → J
  | str : String → J
  | arr : List J → J
  | obj : List (String × J) → J

/-- Field lookup in the entry list of an object: first entry with the key wins. -/
def J.getEntries : List (String × J) → String → J
  | [], _ => .undefinedJ
  | (k', v) :: rest, k => if k' = k then v else J.getEntries rest k

/-- JavaScript member access `j[k]` (total: reads on non-objects give `undefinedJ`;
the source only reads fields of objects, or uses `?.` which is the same here). -/
def J.get (j : J) (k : String) : J :=
  match j with
  | .obj fs => J.getEntries fs k
  | _ => .undefinedJ

/-- JavaScript truthiness. -/
def J.truthy : J → Bool
  | .undefinedJ => false
  | .null => false
  | .bool b => b
  | .num n => n != 0
  | .str s => s != ""
  | .arr _ => true
  | .obj _ => true

/-- JavaScript `a || b`. -/
def J.orJS (a b : J) : J := if a.truthy then a else b

/-- JavaScript `a || undefined`. -/
def J.orUndefinedJ (a : J) : J := J.orJS a .undefinedJ

/-- `x === undefined`. -/
def J.isUndefinedJ : J → Bool
  | .undefinedJ => true
  | _ => false

/-- `x === false` (strict equality against the literal `false`). -/
def J.isFalse : J → Bool
  | .bool false => true
  | _ => false

/-! ## Typed form-state model

Mirrors the in-memory form state that the onboarding component feeds to
`BAISFormValidator.validateComplete` and `FormDataTransformer.transformToAPIFormat`.
-/

structure Coordinates where
  latitude : Int
  longitude : Int
deriving Repr, DecidableEq

structure BusinessInfo where
  name : String
  type : String
  description : Option String
  establishedDate : Option String
  website : Option String
  capacity : Option Int
deriving Repr, DecidableEq

structure LocationInfo where
  address : String
  city : String
  state : String
  postalCode : Option String
  country : Option String
  timezone : Option String
  coordinates : Option Coordinates
deriving Repr, DecidableEq

structure ContactInfo where
  email : String
  phone : Option String
  secondaryEmail : Option String
  businessHours : Option String
deriving Repr, DecidableEq

structure WorkflowStep where
  name : String
  description : Option String
  required : Option Bool
  timeoutMinutes : Option Int
  retryAttempts : Option Int
deriving Repr, DecidableEq

structure Workflow where
  pattern : String
  steps : List WorkflowStep
deriving Repr, DecidableEq

structure ParamConstraints where
  minimum : Option Int
  maximum : Option Int
  minLength : Option Int
  maxLength : Option Int
  pattern : Option String
  enum : Option (List String)
  format : Option String
deriving Repr, DecidableEq

structure ParamPricing where
  baseRate : Option Int
  currency : Option String
  taxRate : Option Int
  serviceFee : Option Int
  minimumCharge : Option Int
deriving Repr, DecidableEq

structure Parameter where
  name : String
  type : String
  description : String
  required : Option Bool
  default : Option String
  constraints : Option ParamConstraints
  pricing : Option ParamPricing
deriving Repr, DecidableEq

structure Availability where
  endpoint : Option String
  realTime : Option Bool
  cacheTimeoutSeconds : Option Int
  advanceBookingDays : Option Int
deriving Repr, DecidableEq

structure CancellationPolicy where
  type : String
  freeUntilHours : Option Int
  penaltyPercentage : Option Int
  description : String
deriving Repr, DecidableEq

structure PaymentConfig where
  methods : Option (List String)
  timing : Option String
  depositRequired : Option Bool
  depositPercentage : Option Int
deriving Repr, DecidableEq

structure ServicePolicies where
  modificationFee : Option Int
  noShowPenalty : Option Int
deriving Repr, DecidableEq

structure ServiceConfig where
  id : String
  name : String
  description : String
  category : String
  workflow : Option Workflow
  parameters : List Parameter
  availability : Option Availability
  cancellationPolicy : Option CancellationPolicy
  payment : Option PaymentConfig
  policies : Option ServicePolicies
deriving Repr, DecidableEq

structure MCPConfig where
  autoGenerate : Bool
  endpoint : Option String
deriving Repr, DecidableEq

structure A2AConfig where
  autoGenerate : Bool
  discoveryUrl : Option String
deriving Repr, DecidableEq

structure WebhooksConfig where
  autoGenerate : Bool
  endpoint : Option String
  events : Option (List String)
deriving Repr, DecidableEq

structure IntegrationConfig where
  mcp : Option MCPConfig
  a2a : Option A2AConfig
  webhooks : Option WebhooksConfig
deriving Repr, DecidableEq

structure AP2Config where
  enabled : Bool
  verificationRequired : Option Bool
  mandateExpiryHours : Option Int
deriving Repr, DecidableEq

structure FormState where
  businessInfo : BusinessInfo
  location : LocationInfo
  contact : ContactInfo
  services : List ServiceConfig
  integration : Option IntegrationConfig
  ap2 : Option AP2Config
deriving Repr, DecidableEq

/-! ## Constants (assets/js/core/constants.js) -/

def BUSINESS_TYPES : List String :=
  ["hospitality", "food_service", "retail", "healthcare", "finance",
   "professional_services", "education", "technology", "creative", "other"]

def WORKFLOW_PATTERNS : List String :=
  ["booking_confirmation_payment", "request_approval_payment",
   "instant_purchase", "quote_negotiation_contract"]

def PARAMETER_TYPES : List String :=
  ["string", "integer", "number", "boolean", "array", "object",
   "date", "datetime", "time"]

def CANCELLATION_POLICY_TYPES : List String :=
  ["flexible", "moderate", "strict", "non_refundable"]

def PAYMENT_METHODS : List String :=
  ["credit_card", "debit_card", "bank_transfer", "digital_wallet",
   "cryptocurrency", "buy_now_pay_later", "cash", "check"]

def PAYMENT_TIMING : List String :=
  ["at_booking", "on_arrival", "after_service", "deposit_then_balance"]

def WEBHOOK_EVENTS : List String :=
  ["booking_confirmed", "booking_modified", "booking_cancelled",
   "payment_processed", "payment_failed", "payment_refunded",
   "service_started", "service_completed"]

/-- A `VALIDATION_RULES` entry consumed by `isValidString`. -/
structure StringRule where
  MIN_LENGTH : Option Nat
  MAX_LENGTH : Option Nat
  REQUIRED : Bool
deriving Repr, DecidableEq

def BUSINESS_NAME_RULE : StringRule := ⟨some 1, some 255, true⟩
def SERVICE_NAME_RULE : StringRule := ⟨some 1, some 100, true⟩
def SERVICE_ID_RULE : StringRule := ⟨some 1, some 100, true⟩
def SERVICE_DESCRIPTION_RULE : StringRule := ⟨some 1, some 500, true⟩
def PARAMETER_NAME_RULE : StringRule := ⟨some 1, some 100, true⟩
def PARAMETER_DESCRIPTION_RULE : StringRule := ⟨some 1, some 500, true⟩
def CANCELLATION_POLICY_DESCRIPTION_RULE : StringRule := ⟨some 10, some 500, true⟩

def isLowerAZ (c : Char) : Bool := 'a' ≤ c && c ≤ 'z'
def isDigit09 (c : Char) : Bool := '0' ≤ c && c ≤ '9'

/-- `/^[a-z0-9_]+$/` (SERVICE_ID.PATTERN). -/
def SERVICE_ID_PATTERN (s : String) : Bool :=
  !s.isEmpty && s.toList.all (fun c => isLowerAZ c || isDigit09 c || c == '_')

/-- `/^[a-z_][a-z0-9_]*$/` (PARAMETER_NAME.PATTERN). -/
def PARAMETER_NAME_PATTERN (s : String) : Bool :=
  match s.toList with
  | [] => false
  | c :: rest => (isLowerAZ c || c == '_')
      && rest.all (fun d => isLowerAZ d || isDigit09 d || d == '_')

/-- Models `String.prototype.startsWith` over the character list (the built-in
`String.startsWith` does not reduce in the kernel). -/
def strStartsWith (s pre : String) : Bool :=
  s.toList.take pre.toList.length == pre.toList

/-- Models `String.prototype.endsWith` over the character list. -/
def strEndsWith (s suf : String) : Bool :=
  s.toList.reverse.take suf.toList.length == suf.toList.reverse

/-- `/^[^@]+@[^@]+\.[^@]+$/` (EMAIL.PATTERN): exactly one `@`, something before it,
and after it a `.` that is neither first nor last. -/
def EMAIL_PATTERN (s : String) : Bool :=
  let cs := s.toList
  (cs.count '@' == 1) &&
  (let localPart := cs.takeWhile (fun c => c != '@')
   let domain := (cs.dropWhile (fun c => c != '@')).drop 1
   !localPart.isEmpty && ((domain.drop 1).dropLast.contains '.'))

/-- `/^\+?[1-9]\d{1,14}$/` (PHONE.PATTERN). -/
def PHONE_PATTERN (s : String) : Bool :=
  let cs := match s.toList with
    | '+' :: rest => rest
    | cs => cs
  match cs with
  | [] => false
  | c :: rest => ('1' ≤ c && c ≤ '9') && rest.all Char.isDigit
      && 1 ≤ rest.length && rest.length ≤ 14

/-! ## Validator helpers (BAISFormValidator) -/

/-- Models `String.prototype.trim` (ASCII whitespace suffices here). -/
def jsTrim (s : String) : String :=
  String.mk (((s.toList.dropWhile Char.isWhitespace).reverse.dropWhile
    Char.isWhitespace).reverse)

/-- `isRequiredString`: a string whose trimmed form is non-empty. -/
def isRequiredString (v : String) : Bool := jsTrim v != ""

/-- `isValidString(value, rules)`. -/
def isValidString (value : String) (rules : StringRule) : Bool :=
  if rules.REQUIRED && !(isRequiredString value) then false
  else if value != "" && (match rules.MIN_LENGTH with
      | some m => value.length < m
      | none => false) then false
  else if value != "" && (match rules.MAX_LENGTH with
      | some m => value.length > m
      | none => false) then false
  else true

/-- `isValidEmail`. -/
def isValidEmail (email : String) : Bool :=
  if email == "" then false else EMAIL_PATTERN email

/-- `isValidPhone` (vacuously true for an absent phone; callers guard on truthiness). -/
def isValidPhone (phone : String) : Bool :=
  if phone == "" then true else PHONE_PATTERN phone

/-- `isValidURL`: models `new URL(url)` succeeding (for the http/https URLs that the
subsequent `startsWith` check accepts, the browser constructor succeeds exactly when
the authority part is non-empty) conjoined with the scheme check of the source. -/
def isValidURL (url : String) : Bool :=
  let hostNonempty : String → Bool := fun rest =>
    !((rest.toList.takeWhile (fun c => c != '/' && c != '?' && c != '#')).isEmpty)
  (strStartsWith url "http://" && hostNonempty (url.drop 7))
    || (strStartsWith url "https://" && hostNonempty (url.drop 8))

/-- `isValidCoordinates` (the `typeof` checks are vacuous in the typed model). -/
def isValidCoordinates : Option Coordinates → Bool
  | none => false
  | some c => decide (-90 ≤ c.latitude ∧ c.latitude ≤ 90
      ∧ -180 ≤ c.longitude ∧ c.longitude ≤ 180)

/-- Models `new RegExp(p)` not throwing.  No claim verified here exercises a
syntactically invalid pattern, so compilation is modeled as always succeeding. -/
def regexCompiles (_p : String) : Bool := true

/-- JavaScript `String.prototype.includes`: the pattern occurs at some position. -/
def strIncludes (s pat : String) : Bool :=
  (List.range (s.toList.length + 1)).any
    (fun i => (s.toList.drop i).take pat.toList.length == pat.toList)

/-! ## Validation engine (BAISFormValidator)

Each `validateX` method of the source appends messages to `this.errors`; the
embedding returns the appended messages in order.  The per-scope "seen" sets used
for uniqueness tracking are threaded explicitly.
-/

/-- `validateBusinessInfo`. -/
def validateBusinessInfo (b : BusinessInfo) : List String :=
  (if !(isValidString b.name BUSINESS_NAME_RULE) then
    ["Business name is required and must be 1-255 characters"] else []) ++
  (if b.type == "" || !(BUSINESS_TYPES.contains b.type) then
    ["Please select a valid business type"] else []) ++
  (match b.website with
   | some w => if w != "" && !(isValidURL w) then
      ["Please enter a valid website URL"] else []
   | none => []) ++
  (match b.description with
   | some d => if d != "" && d.length > 1000 then
      ["Business description must be no more than 1000 characters"] else []
   | none => []) ++
  (match b.capacity with
   | some c => if c != 0 && c < 1 then
      ["Business capacity must be a positive integer"] else []
   | none => [])

/-- `validateLocation`. -/
def validateLocation (l : LocationInfo) : List String :=
  (if !(isRequiredString l.address) then ["Address is required"] else []) ++
  (if !(isRequiredString l.city) then ["City is required"] else []) ++
  (if !(isRequiredString l.state) then ["State/Province is required"] else []) ++
  (if (match l.country with
       | none => true
       | some c => c == "" || c.length != 2) then
    ["Please select a valid country"] else []) ++
  (if (match l.timezone with
       | none => true
       | some t => !(isRequiredString t)) then
    ["Timezone is required"] else []) ++
  (match l.coordinates with
   | some c => if !(isValidCoordinates (some c)) then
      ["Invalid coordinates format"] else []
   | none => [])

/-- `validateContact`. -/
def validateContact (ct : ContactInfo) : List String :=
  (if !(isValidEmail ct.email) then
    ["Please enter a valid email address"] else []) ++
  (match ct.phone with
   | some p => if p != "" && !(isValidPhone p) then
      ["Please enter a valid phone number (e.g., +1-555-555-5555)"] else []
   | none => []) ++
  (match ct.secondaryEmail with
   | some s => if s != "" && !(isValidEmail s) then
      ["Secondary email must be a valid email address"] else []
   | none => [])

/-- The step loop of `validateWorkflow` (forEach with its index). -/
def validateSteps : List WorkflowStep → Nat → String → List String
  | [], _, _ => []
  | st :: rest, i, pfx =>
    (if !(isRequiredString st.name) then
      [pfx ++ ", Step " ++ toString (i + 1) ++ ": Step name is required"] else []) ++
    (match st.timeoutMinutes with
     | some t => if t != 0 && (t < 1 || t > 1440) then
        [pfx ++ ", Step " ++ toString (i + 1)
          ++ ": Timeout must be between 1 and 1440 minutes"] else []
     | none => []) ++
    (match st.retryAttempts with
     | some r => if r < 0 || r > 10 then
        [pfx ++ ", Step " ++ toString (i + 1)
          ++ ": Retry attempts must be between 0 and 10"] else []
     | none => []) ++
    validateSteps rest (i + 1) pfx

/-- `validateWorkflow`. -/
def validateWorkflow (w : Option Workflow) (pfx : String) : List String :=
  match w with
  | none => [pfx ++ ": Workflow configuration is required"]
  | some w =>
    (if w.pattern == "" || !(WORKFLOW_PATTERNS.contains w.pattern) then
      [pfx ++ ": Please select a valid workflow pattern"] else []) ++
    (if w.steps.length > 10 then
      [pfx ++ ": Maximum 10 workflow steps allowed"] else []) ++
    validateSteps w.steps 0 pfx

/-- `validateParameterConstraints`. -/
def validateParameterConstraints (p : Parameter) (pp : String) : List String :=
  match p.constraints with
  | none => []
  | some c =>
    (if p.type == "number" || p.type == "integer" then
      (match c.minimum, c.maximum with
       | some mn, some mx => if mn > mx then
          [pp ++ ": Minimum cannot be greater than maximum"] else []
       | _, _ => []) else []) ++
    (if p.type == "string" then
      (match c.minLength, c.maxLength with
       | some mn, some mx => if mn > mx then
          [pp ++ ": Minimum length cannot be greater than maximum length"] else []
       | _, _ => []) ++
      (match c.pattern with
       | some pat => if pat != "" && !(regexCompiles pat) then
          [pp ++ ": Invalid regex pattern"] else []
       | none => [])
     else [])

/-- `validateParameterPricing` (the `typeof` checks are vacuous in the typed model). -/
def validateParameterPricing (pr : ParamPricing) (pp : String) : List String :=
  (match pr.baseRate with
   | some b => if b < 0 then
      [pp ++ ": Base rate must be a non-negative number"] else []
   | none => []) ++
  (match pr.currency with
   | some cu => if cu != "" && cu.length != 3 then
      [pp ++ ": Currency must be a 3-character code (e.g., USD)"] else []
   | none => []) ++
  (match pr.taxRate with
   | some t => if t < 0 || t > 1 then
      [pp ++ ": Tax rate must be between 0 and 1"] else []
   | none => []) ++
  (match pr.serviceFee with
   | some f => if f < 0 then
      [pp ++ ": Service fee must be a non-negative number"] else []
   | none => [])

/-- The parameter loop of `validateParameters`, with the per-service running set
of seen names. -/
def validateParamList : List Parameter → Nat → String → List String → List String
  | [], _, _, _ => []
  | p :: rest, i, pfx, seen =>
    let pp := pfx ++ ", Parameter " ++ toString (i + 1)
    let nameStep : List String × List String :=
      if !(isValidString p.name PARAMETER_NAME_RULE) then
        ([pp ++ ": Parameter name is required (1-100 characters)"], seen)
      else if !(PARAMETER_NAME_PATTERN p.name) then
        ([pp ++ ": Parameter name must start with a letter and contain only lowercase letters, numbers, and underscores"], seen)
      else if seen.contains p.name then
        ([pp ++ ": Parameter name \"" ++ p.name ++ "\" is already used"], seen)
      else ([], p.name :: seen)
    nameStep.1 ++
    (if p.type == "" || !(PARAMETER_TYPES.contains p.type) then
      [pp ++ ": Please select a valid parameter type"] else []) ++
    (if !(isValidString p.description PARAMETER_DESCRIPTION_RULE) then
      [pp ++ ": Description is required (1-500 characters)"] else []) ++
    validateParameterConstraints p pp ++
    (match p.pricing with
     | some pr => validateParameterPricing pr pp
     | none => []) ++
    validateParamList rest (i + 1) pfx nameStep.2

/-- `validateParameters`. -/
def validateParameters (ps : List Parameter) (pfx : String) : List String :=
  if ps.length == 0 then [pfx ++ ": At least one parameter is required"]
  else
    (if ps.length > 50 then [pfx ++ ": Maximum 50 parameters allowed"] else []) ++
    validateParamList ps 0 pfx []

/-- `validateAvailability`. -/
def validateAvailability (a : Option Availability) (pfx : String) : List String :=
  match a with
  | none => [pfx ++ ": Availability configuration is required"]
  | some a =>
    (match a.cacheTimeoutSeconds with
     | some v => if v < 0 || v > 3600 then
        [pfx ++ ": Cache timeout must be between 0 and 3600 seconds"] else []
     | none => []) ++
    (match a.advanceBookingDays with
     | some v => if v < 1 || v > 730 then
        [pfx ++ ": Advance booking days must be between 1 and 730"] else []
     | none => []) ++
    (match a.endpoint with
     | some e => if e != "" && !(isValidURL e) then
        [pfx ++ ": Availability endpoint must be a valid URL"] else []
     | none => [])

/-- `validateCancellationPolicy`. -/
def validateCancellationPolicy (p : Option CancellationPolicy) (pfx : String) :
    List String :=
  match p with
  | none => [pfx ++ ": Cancellation policy is required"]
  | some p =>
    (if p.type == "" || !(CANCELLATION_POLICY_TYPES.contains p.type) then
      [pfx ++ ": Please select a valid cancellation policy type"] else []) ++
    (match p.freeUntilHours with
     | some v => if v < 0 || v > 168 then
        [pfx ++ ": Free cancellation hours must be between 0 and 168"] else []
     | none => []) ++
    (match p.penaltyPercentage with
     | some v => if v < 0 || v > 100 then
        [pfx ++ ": Penalty percentage must be between 0 and 100"] else []
     | none => []) ++
    (if !(isValidString p.description CANCELLATION_POLICY_DESCRIPTION_RULE) then
      [pfx ++ ": Cancellation policy description is required (10-500 characters)"]
     else [])

/-- The method loop of `validatePaymentConfig`. -/
def validateMethodList : List String → String → List String
  | [], _ => []
  | m :: rest, pfx =>
    (if !(PAYMENT_METHODS.contains m) then
      [pfx ++ ": Invalid payment method \"" ++ m ++ "\""] else []) ++
    validateMethodList rest pfx

/-- `validatePaymentConfig`. -/
def validatePaymentConfig (p : Option PaymentConfig) (pfx : String) : List String :=
  match p with
  | none => [pfx ++ ": Payment configuration is required"]
  | some p =>
    (match p.methods with
     | none => [pfx ++ ": At least one payment method must be selected"]
     | some ms =>
        if ms.length == 0 then [pfx ++ ": At least one payment method must be selected"]
        else validateMethodList ms pfx) ++
    (if (match p.timing with
         | none => true
         | some t => t == "" || !(PAYMENT_TIMING.contains t)) then
      [pfx ++ ": Please select a valid payment timing"] else []) ++
    (if (match p.depositRequired with
         | some true => true
         | _ => false) then
      (match p.depositPercentage with
       | some d => if d < 0 || d > 100 then
          [pfx ++ ": Deposit percentage must be between 0 and 100"] else []
       | none => [])
     else [])

/-- `validateServicePolicies`. -/
def validateServicePolicies (p : Option ServicePolicies) (pfx : String) :
    List String :=
  match p with
  | none => []
  | some p =>
    (match p.modificationFee with
     | some m => if m < 0 then
        [pfx ++ ": Modification fee must be a non-negative number"] else []
     | none => []) ++
    (match p.noShowPenalty with
     | some n => if n < 0 then
        [pfx ++ ": No-show penalty must be a non-negative number"] else []
     | none => [])

/-- `validateServiceBasics`, returning its errors together with the updated
running set of seen service ids (the source mutates the set in the final
`else` branch only). -/
def validateServiceBasics (s : ServiceConfig) (pfx : String)
    (serviceIds : List String) : List String × List String :=
  let idStep : List String × List String :=
    if !(isValidString s.id SERVICE_ID_RULE) then
      ([pfx ++ ": Service ID is required (1-100 characters)"], serviceIds)
    else if !(SERVICE_ID_PATTERN s.id) then
      ([pfx ++ ": Service ID must contain only lowercase letters, numbers, and underscores"], serviceIds)
    else if serviceIds.contains s.id then
      ([pfx ++ ": Service ID \"" ++ s.id ++ "\" is already used"], serviceIds)
    else ([], s.id :: serviceIds)
  ((if !(isValidString s.name SERVICE_NAME_RULE) then
      [pfx ++ ": Service name is required (1-100 characters)"] else []) ++
   idStep.1 ++
   (if !(isValidString s.description SERVICE_DESCRIPTION_RULE) then
      [pfx ++ ": Service description is required (1-500 characters)"] else []) ++
   (if !(isRequiredString s.category) then
      [pfx ++ ": Service category is required"] else []),
   idStep.2)

/-- The service loop of `validateServices` (forEach with index and the running
`serviceIds` set). -/
def validateServiceList : List ServiceConfig → Nat → List String → List String
  | [], _, _ => []
  | s :: rest, i, serviceIds =>
    let pfx := "Service " ++ toString (i + 1)
    let basics := validateServiceBasics s pfx serviceIds
    basics.1 ++
    validateWorkflow s.workflow pfx ++
    validateParameters s.parameters pfx ++
    validateAvailability s.availability pfx ++
    validateCancellationPolicy s.cancellationPolicy pfx ++
    validatePaymentConfig s.payment pfx ++
    validateServicePolicies s.policies pfx ++
    validateServiceList rest (i + 1) basics.2

/-- `validateServices`. -/
def validateServices (ss : List ServiceConfig) : List String :=
  if ss.length == 0 then ["At least one service must be defined"]
  else
    (if ss.length > 20 then ["Maximum 20 services allowed"] else []) ++
    validateServiceList ss 0 []

/-- The event loop of `validateIntegration`. -/
def validateEventList : List String → List String
  | [] => []
  | ev :: rest =>
    (if !(WEBHOOK_EVENTS.contains ev) then
      ["Invalid webhook event \"" ++ ev ++ "\""] else []) ++
    validateEventList rest

/-- The MCP block of `validateIntegration`. -/
def validateIntegrationMCP : Option MCPConfig → List String
  | some m =>
    if !m.autoGenerate then
      match m.endpoint with
      | none => ["MCP endpoint is required when auto-generate is disabled"]
      | some e =>
        if e == "" then
          ["MCP endpoint is required when auto-generate is disabled"]
        else if !(isValidURL e && strEndsWith e "/mcp") then
          ["MCP endpoint must be a valid URL ending with /mcp"]
        else []
    else []
  | none => []

/-- The A2A block of `validateIntegration`. -/
def validateIntegrationA2A : Option A2AConfig → List String
  | some a =>
    if !a.autoGenerate then
      match a.discoveryUrl with
      | none => ["A2A discovery URL is required when auto-generate is disabled"]
      | some u =>
        if u == "" then
          ["A2A discovery URL is required when auto-generate is disabled"]
        else if !(isValidURL u && strIncludes u "/.well-known/agent.json") then
          ["A2A discovery URL must be a valid URL containing /.well-known/agent.json"]
        else []
    else []
  | none => []

/-- The webhook-endpoint block of `validateIntegration`. -/
def validateIntegrationWebhooks : Option WebhooksConfig → List String
  | some w =>
    if !w.autoGenerate then
      match w.endpoint with
      | none => ["Webhook endpoint is required when auto-generate is disabled"]
      | some e =>
        if e == "" then
          ["Webhook endpoint is required when auto-generate is disabled"]
        else if !(isValidURL e) then
          ["Webhook endpoint must be a valid URL"]
        else []
    else []
  | none => []

/-- The webhook-events block of `validateIntegration`. -/
def validateIntegrationEvents : Option WebhooksConfig → List String
  | some w =>
    (match w.events with
     | some evs => validateEventList evs
     | none => [])
  | none => []

/-- `validateIntegration`. -/
def validateIntegration (integ : Option IntegrationConfig) : List String :=
  match integ with
  | none => []
  | some integ =>
    validateIntegrationMCP integ.mcp ++
    validateIntegrationA2A integ.a2a ++
    validateIntegrationWebhooks integ.webhooks ++
    validateIntegrationEvents integ.webhooks

/-- `validateAP2Config`. -/
def validateAP2Config (ap2 : Option AP2Config) : List String :=
  match ap2 with
  | none => []
  | some a =>
    if !a.enabled then []
    else match a.mandateExpiryHours with
      | some h => if h < 1 || h > 168 then
          ["AP2 mandate expiry must be between 1 and 168 hours"] else []
      | none => []

/-- The full error list accumulated by one `validateComplete` call. -/
def validateAll (c : FormState) : List String :=
  validateBusinessInfo c.businessInfo ++
  validateLocation c.location ++
  validateContact c.contact ++
  validateServices c.services ++
  validateIntegration c.integration ++
  validateAP2Config c.ap2

structure ValidationResult where
  isValid : Bool
  errors : List String
deriving Repr, DecidableEq

/-- `validateComplete`, with the `this.errors` accumulator of the instance made
explicit: the input state is the accumulator left over from any previous call,
the output state is the accumulator after this call.  The first
statement `this.errors = []` discards the previous accumulator, which is why
`prevErrors` does not occur on the right-hand side. -/
def validateCompleteState (prevErrors : List String) (c : FormState) :
    ValidationResult × List String :=
  let _ := prevErrors
  let errors := validateAll c
  (⟨errors.length == 0, errors⟩, errors)

/-- `validateComplete` on a fresh validator instance (`this.errors = []`). -/
def validateComplete (c : FormState) : ValidationResult :=
  (validateCompleteState [] c).1

/-! ## Transformation engine (FormDataTransformer)

Transliterated over `J`.  Where the source would throw on a shape the claims
never exercise (e.g. calling `.map` on a truthy non-array), the embedding
returns a harmless value and says so in a comment.
-/

/-- `sanitizeBusinessName`: collapse each run of non-`[a-z0-9]` characters of the
lowercased name to a single hyphen (`/[^a-z0-9]+/g` → `-`). -/
def collapseRuns (prevHyphen : Bool) : List Char → List Char
  | [] => []
  | c :: rest =>
    if isLowerAZ c || isDigit09 c then c :: collapseRuns false rest
    else if prevHyphen then collapseRuns true rest
    else '-' :: collapseRuns true rest

/-- `sanitizeBusinessName`: `/^-+|-+$/g` → strip the leading and trailing hyphen runs. -/
def stripEdgeHyphens (l : List Char) : List Char :=
  ((l.dropWhile (· == '-')).reverse.dropWhile (· == '-')).reverse

/-- `sanitizeBusinessName(name)`. -/
def sanitizeBusinessName (name : String) : String :=
  if name == "" then "business"
  else
    (String.mk (stripEdgeHyphens
      (collapseRuns false (name.toList.map Char.toLower)))).take 50

/-- `sanitizePhone(phone)`: `none` models the `null` returned for a falsy phone. -/
def sanitizePhone (phone : String) : Option String :=
  if phone == "" then none
  else
    let digits := String.mk (phone.toList.filter Char.isDigit)
    if digits.length == 11 && strStartsWith digits "1" then
      some ("+" ++ digits.take 1 ++ "-" ++ ((digits.drop 1).take 3) ++ "-"
        ++ ((digits.drop 4).take 3) ++ "-" ++ digits.drop 7)
    else if digits.length == 10 then
      some ("+1-" ++ digits.take 3 ++ "-" ++ ((digits.drop 3).take 3) ++ "-"
        ++ digits.drop 6)
    else
      some (if strStartsWith digits "+" then phone else "+" ++ phone)

/-- `sanitizePhone` lifted to `J` (a truthy non-string phone would throw in the
source; the claims only pass strings). -/
def sanitizePhoneJ : J → J
  | .str s =>
    match sanitizePhone s with
    | none => .null
    | some r => .str r
  | _ => .null

/-- `transformContactInfo(contact, businessInfo)`. -/
def transformContactInfo (contact businessInfo : J) : J :=
  .obj [
    ("email", contact.get "email"),
    ("phone", (sanitizePhoneJ (contact.get "phone")).orUndefinedJ),
    ("secondary_email", (contact.get "secondaryEmail").orUndefinedJ),
    ("website", (businessInfo.get "website").orUndefinedJ),
    ("business_hours", (contact.get "businessHours").orUndefinedJ)]

/-- `transformLocation(location)`. -/
def transformLocation (location : J) : J :=
  .obj [
    ("address", location.get "address"),
    ("city", location.get "city"),
    ("state", location.get "state"),
    ("postal_code", (location.get "postalCode").orUndefinedJ),
    ("country", (location.get "country").orJS (.str "US")),
    ("timezone", (location.get "timezone").orJS (.str "UTC")),
    ("coordinates",
      if (location.get "coordinates").truthy then
        .obj [
          ("latitude", (location.get "coordinates").get "latitude"),
          ("longitude", (location.get "coordinates").get "longitude")]
      else .undefinedJ)]

/-- The step map of `transformWorkflowSteps`. -/
def transformStep (step : J) : J :=
  .obj [
    ("name", step.get "name"),
    ("description", (step.get "description").orUndefinedJ),
    ("required", .bool (!(step.get "required").isFalse)),
    ("timeout_minutes", (step.get "timeoutMinutes").orJS (.num 30)),
    ("retry_attempts",
      if !(step.get "retryAttempts").isUndefinedJ then step.get "retryAttempts"
      else .num 3)]

/-- `transformWorkflowSteps(steps)` (a truthy non-array would throw in the source). -/
def transformWorkflowSteps (steps : J) : J :=
  if !steps.truthy then .undefinedJ
  else match steps with
    | .arr l => if l.length == 0 then .undefinedJ else .arr (l.map transformStep)
    | _ => .undefinedJ

/-- `transformParameterConstraints(param)`, as the list of fields it spreads
into the parameter object. -/
def transformParameterConstraints (param : J) : List (String × J) :=
  if !(param.get "constraints").truthy then []
  else
    let c := param.get "constraints"
    (if !(c.get "minimum").isUndefinedJ then [("minimum", c.get "minimum")] else []) ++
    (if !(c.get "maximum").isUndefinedJ then [("maximum", c.get "maximum")] else []) ++
    (if !(c.get "minLength").isUndefinedJ then [("min_length", c.get "minLength")] else []) ++
    (if !(c.get "maxLength").isUndefinedJ then [("max_length", c.get "maxLength")] else []) ++
    (if (c.get "pattern").truthy then [("pattern", c.get "pattern")] else []) ++
    (if (c.get "enum").truthy && (match c.get "enum" with
        | .arr _ => true
        | _ => false) then [("enum", c.get "enum")] else []) ++
    (if (c.get "format").truthy then [("format", c.get "format")] else [])

/-- `transformParameterPricing(pricing)`. -/
def transformParameterPricing (pricing : J) : J :=
  .obj [
    ("base_rate", (pricing.get "baseRate").orJS (.num 0)),
    ("currency", (pricing.get "currency").orJS (.str "USD")),
    ("tax_rate", (pricing.get "taxRate").orJS (.num 0)),
    ("service_fee", (pricing.get "serviceFee").orJS (.num 0)),
    ("minimum_charge", (pricing.get "minimumCharge").orUndefinedJ)]

/-- The per-parameter object built inside `transformParameters`. -/
def transformOneParameter (param : J) : J :=
  .obj (
    [("type", param.get "type"),
     ("description", param.get "description"),
     ("required", (param.get "required").orJS (.bool false)),
     ("default",
       if !(param.get "default").isUndefinedJ then param.get "default" else .undefinedJ)] ++
    transformParameterConstraints param ++
    (if (param.get "pricing").truthy then
      [("pricing", transformParameterPricing (param.get "pricing"))] else []))

/-- `transformParameters(parameters)`: builds the name-keyed object.  JavaScript
object keys are strings in insertion order, modeled as the entry list (the
claims do not exercise duplicate parameter names, where a JavaScript object
would keep the last assignment). -/
def transformParameters (parameters : J) : J :=
  match parameters with
  | .arr l =>
    .obj (l.map (fun p =>
      ((match p.get "name" with
        | .str s => s
        | _ => ""), transformOneParameter p)))
  | _ => .obj []

/-- `transformAvailability(availability)`. -/
def transformAvailability (availability : J) : J :=
  .obj [
    ("endpoint", (availability.get "endpoint").orUndefinedJ),
    ("real_time", .bool (!(availability.get "realTime").isFalse)),
    ("cache_timeout_seconds", (availability.get "cacheTimeoutSeconds").orJS (.num 300)),
    ("advance_booking_days", (availability.get "advanceBookingDays").orJS (.num 365))]

/-- `transformCancellationPolicy(policy)`. -/
def transformCancellationPolicy (policy : J) : J :=
  .obj [
    ("type", policy.get "type"),
    ("free_until_hours", (policy.get "freeUntilHours").orJS (.num 24)),
    ("penalty_percentage", (policy.get "penaltyPercentage").orJS (.num 0)),
    ("description", policy.get "description")]

/-- `transformPaymentConfig(payment)`. -/
def transformPaymentConfig (payment : J) : J :=
  .obj [
    ("methods", (payment.get "methods").orJS (.arr [.str "credit_card"])),
    ("timing", (payment.get "timing").orJS (.str "at_booking")),
    ("processing", .str "secure_tokenized"),
    ("deposit_required", (payment.get "depositRequired").orJS (.bool false)),
    ("deposit_percentage",
      if (payment.get "depositRequired").truthy then
        (payment.get "depositPercentage").orJS (.num 0)
      else .undefinedJ)]

/-- `transformServicePolicies(policies)`. -/
def transformServicePolicies (policies : J) : J :=
  if !policies.truthy then
    .obj [("modification_fee", .num 0), ("no_show_penalty", .num 0)]
  else
    .obj [
      ("modification_fee", (policies.get "modificationFee").orJS (.num 0)),
      ("no_show_penalty", (policies.get "noShowPenalty").orJS (.num 0))]

/-- `transformService(service)`. -/
def transformService (service : J) : J :=
  .obj [
    ("id", service.get "id"),
    ("name", service.get "name"),
    ("description", service.get "description"),
    ("category", service.get "category"),
    ("workflow_pattern", (service.get "workflow").get "pattern"),
    ("workflow_steps", transformWorkflowSteps ((service.get "workflow").get "steps")),
    ("parameters", transformParameters (service.get "parameters")),
    ("availability", transformAvailability (service.get "availability")),
    ("cancellation_policy",
      transformCancellationPolicy (service.get "cancellationPolicy")),
    ("payment_config", transformPaymentConfig (service.get "payment")),
    ("policies", transformServicePolicies (service.get "policies"))]

/-- `transformServices(services)` (a non-array would throw in the source). -/
def transformServices (services : J) : J :=
  match services with
  | .arr l => .arr (l.map transformService)
  | _ => .arr []

/-- `getMCPEndpoint(mcp, sanitizedBusinessName)`. -/
def getMCPEndpoint (mcp : J) (_sanitizedBusinessName : String) : J :=
  if !mcp.truthy || (mcp.get "autoGenerate").truthy then .undefinedJ
  else mcp.get "endpoint"

/-- `getA2ADiscoveryUrl(a2a, sanitizedBusinessName)`. -/
def getA2ADiscoveryUrl (a2a : J) (_sanitizedBusinessName : String) : J :=
  if !a2a.truthy || (a2a.get "autoGenerate").truthy then .undefinedJ
  else a2a.get "discoveryUrl"

/-- `getWebhookEndpoint(webhooks, sanitizedBusinessName)`. -/
def getWebhookEndpoint (webhooks : J) (_sanitizedBusinessName : String) : J :=
  if !webhooks.truthy || (webhooks.get "autoGenerate").truthy then .undefinedJ
  else webhooks.get "endpoint"

/-- `transformIntegration(integration, businessInfo)`. -/
def transformIntegration (integration businessInfo : J) : J :=
  let sanitizedBusinessName := sanitizeBusinessName
    (match businessInfo.get "name" with
     | .str s => s
     | _ => "")
  .obj [
    ("mcp_endpoint", getMCPEndpoint (integration.get "mcp") sanitizedBusinessName),
    ("a2a_discovery_url",
      getA2ADiscoveryUrl (integration.get "a2a") sanitizedBusinessName),
    ("webhook_endpoint",
      getWebhookEndpoint (integration.get "webhooks") sanitizedBusinessName),
    ("webhook_events",
      ((integration.get "webhooks").get "events").orJS
        (.arr [.str "booking_confirmed", .str "payment_processed",
               .str "booking_cancelled"]))]

/-- `transformAP2Config(ap2)`. -/
def transformAP2Config (ap2 : J) : J :=
  if !ap2.truthy || !(ap2.get "enabled").truthy then .undefinedJ
  else
    .obj [
      ("enabled", .bool true),
      ("verification_required", .bool (!(ap2.get "verificationRequired").isFalse)),
      ("mandate_expiry_hours", (ap2.get "mandateExpiryHours").orJS (.num 24))]

/-- `transformToAPIFormat(formState)`: the forward transform (`toWireFormat`). -/
def transformToAPIFormat (formState : J) : J :=
  .obj [
    ("business_name", (formState.get "businessInfo").get "name"),
    ("business_type", (formState.get "businessInfo").get "type"),
    ("business_description", ((formState.get "businessInfo").get "description").orUndefinedJ),
    ("established_date", ((formState.get "businessInfo").get "establishedDate").orUndefinedJ),
    ("capacity", ((formState.get "businessInfo").get "capacity").orUndefinedJ),
    ("contact_info",
      transformContactInfo (formState.get "contact") (formState.get "businessInfo")),
    ("location", transformLocation (formState.get "location")),
    ("services_config", transformServices (formState.get "services")),
    ("integration",
      transformIntegration (formState.get "integration")
        (formState.get "businessInfo")),
    ("ap2_config", transformAP2Config (formState.get "ap2"))]

/-- `transformParametersFromAPI(parameters)`. -/
def transformParametersFromAPI (parameters : J) : J :=
  if !parameters.truthy then .arr []
  else match parameters with
    | .obj fs =>
      .arr (fs.map (fun nc =>
        .obj [
          ("name", .str nc.1),
          ("type", nc.2.get "type"),
          ("description", nc.2.get "description"),
          ("required", (nc.2.get "required").orJS (.bool false)),
          ("default", nc.2.get "default"),
          ("constraints", .obj [
            ("minimum", nc.2.get "minimum"),
            ("maximum", nc.2.get "maximum"),
            ("minLength", nc.2.get "min_length"),
            ("maxLength", nc.2.get "max_length"),
            ("pattern", nc.2.get "pattern"),
            ("enum", nc.2.get "enum"),
            ("format", nc.2.get "format")]),
          ("pricing",
            if (nc.2.get "pricing").truthy then
              .obj [
                ("baseRate", (nc.2.get "pricing").get "base_rate"),
                ("currency", (nc.2.get "pricing").get "currency"),
                ("taxRate", (nc.2.get "pricing").get "tax_rate"),
                ("serviceFee", (nc.2.get "pricing").get "service_fee"),
                ("minimumCharge", (nc.2.get "pricing").get "minimum_charge")]
            else .null)]))
    | _ => .arr []

/-- `transformServiceFromAPI(service)`.  Note that `workflow.steps` is passed
through as `service.workflow_steps || []` without renaming the wire-format step
fields back. -/
def transformServiceFromAPI (service : J) : J :=
  .obj [
    ("id", service.get "id"),
    ("name", service.get "name"),
    ("description", service.get "description"),
    ("category", service.get "category"),
    ("workflow", .obj [
      ("pattern", service.get "workflow_pattern"),
      ("steps", (service.get "workflow_steps").orJS (.arr []))]),
    ("parameters", transformParametersFromAPI (service.get "parameters")),
    ("availability", .obj [
      ("endpoint", (service.get "availability").get "endpoint"),
      ("realTime", .bool (!((service.get "availability").get "real_time").isFalse)),
      ("cacheTimeoutSeconds",
        ((service.get "availability").get "cache_timeout_seconds").orJS (.num 300)),
      ("advanceBookingDays",
        ((service.get "availability").get "advance_booking_days").orJS (.num 365))]),
    ("cancellationPolicy", .obj [
      ("type", (service.get "cancellation_policy").get "type"),
      ("freeUntilHours",
        ((service.get "cancellation_policy").get "free_until_hours").orJS (.num 24)),
      ("penaltyPercentage",
        ((service.get "cancellation_policy").get "penalty_percentage").orJS (.num 0)),
      ("description", (service.get "cancellation_policy").get "description")]),
    ("payment", .obj [
      ("methods",
        ((service.get "payment_config").get "methods").orJS (.arr [.str "credit_card"])),
      ("timing",
        ((service.get "payment_config").get "timing").orJS (.str "at_booking")),
      ("depositRequired",
        ((service.get "payment_config").get "deposit_required").orJS (.bool false)),
      ("depositPercentage", (service.get "payment_config").get "deposit_percentage")]),
    ("policies", .obj [
      ("modificationFee", ((service.get "policies").get "modification_fee").orJS (.num 0)),
      ("noShowPenalty", ((service.get "policies").get "no_show_penalty").orJS (.num 0))])]

/-- `transformFromAPIFormat(apiData)`: the reverse transform (`fromWireFormat`). -/
def transformFromAPIFormat (apiData : J) : J :=
  .obj [
    ("businessInfo", .obj [
      ("name", apiData.get "business_name"),
      ("type", apiData.get "business_type"),
      ("description", apiData.get "business_description"),
      ("website", (apiData.get "contact_info").get "website"),
      ("establishedDate", apiData.get "established_date"),
      ("capacity", apiData.get "capacity")]),
    ("location", .obj [
      ("address", (apiData.get "location").get "address"),
      ("city", (apiData.get "location").get "city"),
      ("state", (apiData.get "location").get "state"),
      ("postalCode", (apiData.get "location").get "postal_code"),
      ("country", ((apiData.get "location").get "country").orJS (.str "US")),
      ("timezone", ((apiData.get "location").get "timezone").orJS (.str "UTC")),
      ("coordinates", (apiData.get "location").get "coordinates")]),
    ("contact", .obj [
      ("email", (apiData.get "contact_info").get "email"),
      ("phone", (apiData.get "contact_info").get "phone"),
      ("secondaryEmail", (apiData.get "contact_info").get "secondary_email"),
      ("businessHours", (apiData.get "contact_info").get "business_hours")]),
    ("services",
      match apiData.get "services_config" with
      | .arr l => .arr (l.map transformServiceFromAPI)
      | _ => .arr []),
    ("integration", .obj [
      ("mcp", .obj [
        ("autoGenerate", .bool (!((apiData.get "integration").get "mcp_endpoint").truthy)),
        ("endpoint", (apiData.get "integration").get "mcp_endpoint")]),
      ("a2a", .obj [
        ("autoGenerate",
          .bool (!((apiData.get "integration").get "a2a_discovery_url").truthy)),
        ("discoveryUrl", (apiData.get "integration").get "a2a_discovery_url")]),
      ("webhooks", .obj [
        ("autoGenerate",
          .bool (!((apiData.get "integration").get "webhook_endpoint").truthy)),
        ("endpoint", (apiData.get "integration").get "webhook_endpoint"),
        ("events", (apiData.get "integration").get "webhook_events")])]),
    ("ap2", .obj [
      ("enabled", ((apiData.get "ap2_config").get "enabled").orJS (.bool false)),
      ("verificationRequired",
        .bool (!((apiData.get "ap2_config").get "verification_required").isFalse)),
      ("mandateExpiryHours",
        ((apiData.get "ap2_config").get "mandate_expiry_hours").orJS (.num 24))])]

/-! ## Embedding the typed form state into `J` -/

def optJ (f : α → J) : Option α → J
  | none => .undefinedJ
  | some a => f a

def coordinatesToJ (c : Coordinates) : J :=
  .obj [("latitude", .num c.latitude), ("longitude", .num c.longitude)]

def businessInfoToJ (b : BusinessInfo) : J :=
  .obj [
    ("name", .str b.name),
    ("type", .str b.type),
    ("description", optJ .str b.description),
    ("establishedDate", optJ .str b.establishedDate),
    ("website", optJ .str b.website),
    ("capacity", optJ .num b.capacity)]

def locationToJ (l : LocationInfo) : J :=
  .obj [
    ("address", .str l.address),
    ("city", .str l.city),
    ("state", .str l.state),
    ("postalCode", optJ .str l.postalCode),
    ("country", optJ .str l.country),
    ("timezone", optJ .str l.timezone),
    ("coordinates", optJ coordinatesToJ l.coordinates)]

def contactToJ (ct : ContactInfo) : J :=
  .obj [
    ("email", .str ct.email),
    ("phone", optJ .str ct.phone),
    ("secondaryEmail", optJ .str ct.secondaryEmail),
    ("businessHours", optJ .str ct.businessHours)]

def stepToJ (st : WorkflowStep) : J :=
  .obj [
    ("name", .str st.name),
    ("description", optJ .str st.description),
    ("required", optJ .bool st.required),
    ("timeoutMinutes", optJ .num st.timeoutMinutes),
    ("retryAttempts", optJ .num st.retryAttempts)]

def workflowToJ (w : Workflow) : J :=
  .obj [("pattern", .str w.pattern), ("steps", .arr (w.steps.map stepToJ))]

def constraintsToJ (c : ParamConstraints) : J :=
  .obj [
    ("minimum", optJ .num c.minimum),
    ("maximum", optJ .num c.maximum),
    ("minLength", optJ .num c.minLength),
    ("maxLength", optJ .num c.maxLength),
    ("pattern", optJ .str c.pattern),
    ("enum", optJ (fun l => .arr (l.map .str)) c.enum),
    ("format", optJ .str c.format)]

def pricingToJ (p : ParamPricing) : J :=
  .obj [
    ("baseRate", optJ .num p.baseRate),
    ("currency", optJ .str p.currency),
    ("taxRate", optJ .num p.taxRate),
    ("serviceFee", optJ .num p.serviceFee),
    ("minimumCharge", optJ .num p.minimumCharge)]

def parameterToJ (p : Parameter) : J :=
  .obj [
    ("name", .str p.name),
    ("type", .str p.type),
    ("description", .str p.description),
    ("required", optJ .bool p.required),
    ("default", optJ .str p.default),
    ("constraints", optJ constraintsToJ p.constraints),
    ("pricing", optJ pricingToJ p.pricing)]

def availabilityToJ (a : Availability) : J :=
  .obj [
    ("endpoint", optJ .str a.endpoint),
    ("realTime", optJ .bool a.realTime),
    ("cacheTimeoutSeconds", optJ .num a.cacheTimeoutSeconds),
    ("advanceBookingDays", optJ .num a.advanceBookingDays)]

def cancellationPolicyToJ (p : CancellationPolicy) : J :=
  .obj [
    ("type", .str p.type),
    ("freeUntilHours", optJ .num p.freeUntilHours),
    ("penaltyPercentage", optJ .num p.penaltyPercentage),
    ("description", .str p.description)]

def paymentToJ (p : PaymentConfig) : J :=
  .obj [
    ("methods", optJ (fun l => .arr (l.map .str)) p.methods),
    ("timing", optJ .str p.timing),
    ("depositRequired", optJ .bool p.depositRequired),
    ("depositPercentage", optJ .num p.depositPercentage)]

def servicePoliciesToJ (p : ServicePolicies) : J :=
  .obj [
    ("modificationFee", optJ .num p.modificationFee),
    ("noShowPenalty", optJ .num p.noShowPenalty)]

def serviceToJ (s : ServiceConfig) : J :=
  .obj [
    ("id", .str s.id),
    ("name", .str s.name),
    ("description", .str s.description),
    ("category", .str s.category),
    ("workflow", optJ workflowToJ s.workflow),
    ("parameters", .arr (s.parameters.map parameterToJ)),
    ("availability", optJ availabilityToJ s.availability),
    ("cancellationPolicy", optJ cancellationPolicyToJ s.cancellationPolicy),
    ("payment", optJ paymentToJ s.payment),
    ("policies", optJ servicePoliciesToJ s.policies)]

def mcpToJ (m : MCPConfig) : J :=
  .obj [("autoGenerate", .bool m.autoGenerate), ("endpoint", optJ .str m.endpoint)]

def a2aToJ (a : A2AConfig) : J :=
  .obj [("autoGenerate", .bool a.autoGenerate), ("discoveryUrl", optJ .str a.discoveryUrl)]

def webhooksToJ (w : WebhooksConfig) : J :=
  .obj [
    ("autoGenerate", .bool w.autoGenerate),
    ("endpoint", optJ .str w.endpoint),
    ("events", optJ (fun l => .arr (l.map .str)) w.events)]

def integrationToJ (i : IntegrationConfig) : J :=
  .obj [
    ("mcp", optJ mcpToJ i.mcp),
    ("a2a", optJ a2aToJ i.a2a),
    ("webhooks", optJ webhooksToJ i.webhooks)]

def ap2ToJ (a : AP2Config) : J :=
  .obj [
    ("enabled", .bool a.enabled),
    ("verificationRequired", optJ .bool a.verificationRequired),
    ("mandateExpiryHours", optJ .num a.mandateExpiryHours)]

/-- The in-memory form state as the JavaScript object the transformer receives. -/
def toJ (c : FormState) : J :=
  .obj [
    ("businessInfo", businessInfoToJ c.businessInfo),
    ("location", locationToJ c.location),
    ("contact", contactToJ c.contact),
    ("services", .arr (c.services.map serviceToJ)),
    ("integration", optJ integrationToJ c.integration),
    ("ap2", optJ ap2ToJ c.ap2)]

/-- A well-typed configuration violating two independent rules: an over-long
business name (256 characters) and an out-of-range penalty percentage (150). -/
def c4Config : FormState := {
  businessInfo := {
    name := String.mk (List.replicate 256 'a'), type := "hospitality",
    description := none, establishedDate := none, website := none, capacity := none },
  location := {
    address := "123 Main St", city := "Springdale", state := "UT",
    postalCode := none, country := some "US", timezone := some "America/Denver",
    coordinates := none },
  contact := {
    email := "info@lodge.com", phone := none, secondaryEmail := none,
    businessHours := none },
  services := [{
    id := "room_booking", name := "Room Booking",
    description := "Book a room at the lodge", category := "accommodation",
    workflow := some {
      pattern := "booking_confirmation_payment",
      steps := [] },
    parameters := [{
      name := "check_in_date", type := "string", description := "Date of check in",
      required := some true, default := none, constraints := none, pricing := none }],
    availability := some {
      endpoint := none, realTime := some true,
      cacheTimeoutSeconds := some 600, advanceBookingDays := some 30 },
    cancellationPolicy := some {
      type := "flexible", freeUntilHours := some 24, penaltyPercentage := some 150,
      description := "Free cancellation up to 24 hours" },
    payment := some {
      methods := some ["credit_card"], timing := some "at_booking",
      depositRequired := some false, depositPercentage := none },
    policies := some { modificationFee := some 0, noShowPenalty := some 0 } }],
  integration := some {
    mcp := some { autoGenerate := true, endpoint := none },
    a2a := some { autoGenerate := true, discoveryUrl := none },
    webhooks := some { autoGenerate := true, endpoint := none, events := none } },
  ap2 := some
    { enabled := false, verificationRequired := none, mandateExpiryHours := none } }

/-- Pattern-valid, length-valid service id (the two id checks that precede the
uniqueness check in `validateServiceBasics`). -/
def idOk (s : ServiceConfig) : Bool :=
  isValidString s.id SERVICE_ID_RULE && SERVICE_ID_PATTERN s.id

/-- A service whose blocks other than the id pass every check of the service
walk under prefix `pfx` (stated with the validators themselves). -/
def serviceCleanAt (s : ServiceConfig) (pfx : String) : Bool :=
  (validateWorkflow s.workflow pfx == []) &&
  (validateParameters s.parameters pfx == []) &&
  (validateAvailability s.availability pfx == []) &&
  (validateCancellationPolicy s.cancellationPolicy pfx == []) &&
  (validatePaymentConfig s.payment pfx == []) &&
  (validateServicePolicies s.policies pfx == []) &&
  isValidString s.name SERVICE_NAME_RULE &&
  isValidString s.description SERVICE_DESCRIPTION_RULE &&
  isRequiredString s.category

/-- All services are otherwise-clean with valid ids, at their positional
prefixes starting from index `i`. -/
def servicesCleanFrom : List ServiceConfig → Nat → Bool
  | [], _ => true
  | s :: rest, i =>
    serviceCleanAt s ("Service " ++ toString (i + 1)) && idOk s &&
    servicesCleanFrom rest (i + 1)

/-- The duplicate-id message for the service at 0-based index `i`. -/
def specDupMsg (i : Nat) (id : String) : String :=
  "Service " ++ toString (i + 1) ++ ": Service ID \"" ++ id ++ "\" is already used"

/-- Follows the words of the spec: the running set of seen ids is built
incrementally; the first occurrence of an id adds it to the set and reports
nothing, and every later occurrence reports one duplicate error at its index. -/
def specDuplicateIdMsgs : List ServiceConfig → Nat → List String → List String
  | [], _, _ => []
  | s :: rest, i, seen =>
    if seen.contains s.id then
      specDupMsg i s.id :: specDuplicateIdMsgs rest (i + 1) seen
    else specDuplicateIdMsgs rest (i + 1) (s.id :: seen)

/-- A fully valid concrete service. -/
def c5BaseService : ServiceConfig := {
  id := "room_booking", name := "Room Booking",
  description := "Book a room at the lodge", category := "accommodation",
  workflow := some {
    pattern := "booking_confirmation_payment",
    steps := [{ name := "collect_details", description := none,
                required := none, timeoutMinutes := some 45, retryAttempts := some 2 }] },
  parameters := [{
    name := "check_in_date", type := "string", description := "Date of check in",
    required := some true, default := none, constraints := none, pricing := none }],
  availability := some {
    endpoint := none, realTime := some true,
    cacheTimeoutSeconds := some 600, advanceBookingDays := some 30 },
  cancellationPolicy := some {
    type := "flexible", freeUntilHours := some 24, penaltyPercentage := some 0,
    description := "Free cancellation up to 24 hours" },
  payment := some {
    methods := some ["credit_card"], timing := some "at_booking",
    depositRequired := some false, depositPercentage := none },
  policies := some { modificationFee := some 0, noShowPenalty := some 0 } }

/-- The same service under another display name but the same id. -/
def c5ServiceB : ServiceConfig := { c5BaseService with name := "Spa Booking" }

/-- The same service under a distinct id. -/
def c5ServiceC : ServiceConfig := { c5BaseService with id := "spa_booking" }

/-- The field values of a schematic onboarding configuration: one service, one
workflow step, one parameter, every optional block present. -/
structure C1Args where
  businessName : String
  businessType : String
  businessDescription : String
  establishedDate : String
  website : String
  capacity : Int
  address : String
  city : String
  state : String
  postalCode : String
  country : String
  timezone : String
  latitude : Int
  longitude : Int
  email : String
  phone : String
  secondaryEmail : String
  businessHours : String
  serviceId : String
  serviceName : String
  serviceDescription : String
  category : String
  workflowPattern : String
  stepName : String
  stepDescription : String
  stepRequired : Bool
  timeoutMinutes : Int
  retryAttempts : Int
  paramName : String
  paramType : String
  paramDescription : String
  paramRequired : Bool
  availEndpoint : String
  realTime : Bool
  cacheTimeoutSeconds : Int
  advanceBookingDays : Int
  cancelType : String
  cancelDescription : String
  freeUntilHours : Int
  penaltyPercentage : Int
  methods : List String
  timing : String
  modificationFee : Int
  noShowPenalty : Int
  mcpEndpoint : String
  a2aUrl : String
  webhookEndpoint : String
  events : List String
  verificationRequired : Bool
  mandateExpiryHours : Int

/-- The schematic configuration built from `C1Args`. -/
def mkC1Config (a : C1Args) : FormState := {
  businessInfo := {
    name := a.businessName, type := a.businessType,
    description := some a.businessDescription, establishedDate := some a.establishedDate,
    website := some a.website, capacity := some a.capacity },
  location := {
    address := a.address, city := a.city, state := a.state,
    postalCode := some a.postalCode, country := some a.country,
    timezone := some a.timezone, coordinates := some ⟨a.latitude, a.longitude⟩ },
  contact := {
    email := a.email, phone := some a.phone,
    secondaryEmail := some a.secondaryEmail, businessHours := some a.businessHours },
  services := [{
    id := a.serviceId, name := a.serviceName,
    description := a.serviceDescription, category := a.category,
    workflow := some {
      pattern := a.workflowPattern,
      steps := [{
        name := a.stepName, description := some a.stepDescription,
        required := some a.stepRequired, timeoutMinutes := some a.timeoutMinutes,
        retryAttempts := some a.retryAttempts }] },
    parameters := [{
      name := a.paramName, type := a.paramType,
      description := a.paramDescription, required := some a.paramRequired,
      default := none, constraints := none, pricing := none }],
    availability := some {
      endpoint := some a.availEndpoint, realTime := some a.realTime,
      cacheTimeoutSeconds := some a.cacheTimeoutSeconds,
      advanceBookingDays := some a.advanceBookingDays },
    cancellationPolicy := some {
      type := a.cancelType,
      freeUntilHours := some a.freeUntilHours,
      penaltyPercentage := some a.penaltyPercentage,
      description := a.cancelDescription },
    payment := some {
      methods := some a.methods, timing := some a.timing,
      depositRequired := some false, depositPercentage := none },
    policies := some {
      modificationFee := some a.modificationFee,
      noShowPenalty := some a.noShowPenalty } }],
  integration := some {
    mcp := some { autoGenerate := false, endpoint := some a.mcpEndpoint },
    a2a := some { autoGenerate := false, discoveryUrl := some a.a2aUrl },
    webhooks := some {
      autoGenerate := false, endpoint := some a.webhookEndpoint,
      events := some a.events } },
  ap2 := some {
    enabled := true, verificationRequired := some a.verificationRequired,
    mandateExpiryHours := some a.mandateExpiryHours } }

/-- Cleanliness of the schematic values: strings non-empty, numbers non-zero
(so no JavaScript falsy value is silently replaced by a default), and the phone
already in the canonical shape the sanitizer preserves. -/
def c1ArgsOk (a : C1Args) : Bool :=
  a.businessDescription != "" && a.establishedDate != "" && a.website != "" &&
  a.capacity != 0 && a.postalCode != "" && a.country != "" && a.timezone != "" &&
  (sanitizePhone a.phone == some a.phone) && a.phone != "" &&
  a.secondaryEmail != "" && a.businessHours != "" &&
  a.stepDescription != "" && a.timeoutMinutes != 0 &&
  a.availEndpoint != "" && a.cacheTimeoutSeconds != 0 && a.advanceBookingDays != 0 &&
  a.freeUntilHours != 0 && a.penaltyPercentage != 0 && a.timing != "" &&
  a.modificationFee != 0 && a.noShowPenalty != 0 &&
  a.mcpEndpoint != "" && a.a2aUrl != "" && a.webhookEndpoint != "" &&
  a.mandateExpiryHours != 0

/-- What the round trip actually returns on the schematic configuration: every
block is recovered with the original values, except that the workflow steps
stay in wire format (keys `timeout_minutes` and `retry_attempts` instead of the
original `timeoutMinutes` and `retryAttempts`), an absent constraints record
comes back as an explicit all-undefined record, and absent pricing comes back
as `null`. -/
def c1Expected (a : C1Args) : J :=
  J.obj [
    ("businessInfo", J.obj [
      ("name", .str a.businessName), ("type", .str a.businessType),
      ("description", .str a.businessDescription), ("website", .str a.website),
      ("establishedDate", .str a.establishedDate), ("capacity", .num a.capacity)]),
    ("location", J.obj [
      ("address", .str a.address), ("city", .str a.city), ("state", .str a.state),
      ("postalCode", .str a.postalCode), ("country", .str a.country),
      ("timezone", .str a.timezone),
      ("coordinates", J.obj [
        ("latitude", .num a.latitude), ("longitude", .num a.longitude)])]),
    ("contact", J.obj [
      ("email", .str a.email), ("phone", .str a.phone),
      ("secondaryEmail", .str a.secondaryEmail),
      ("businessHours", .str a.businessHours)]),
    ("services", J.arr [J.obj [
      ("id", .str a.serviceId), ("name", .str a.serviceName),
      ("description", .str a.serviceDescription), ("category", .str a.category),
      ("workflow", J.obj [
        ("pattern", .str a.workflowPattern),
        ("steps", J.arr [J.obj [
          ("name", .str a.stepName), ("description", .str a.stepDescription),
          ("required", .bool a.stepRequired),
          ("timeout_minutes", .num a.timeoutMinutes),
          ("retry_attempts", .num a.retryAttempts)]])]),
      ("parameters", J.arr [J.obj [
        ("name", .str a.paramName), ("type", .str a.paramType),
        ("description", .str a.paramDescription), ("required", .bool a.paramRequired),
        ("default", J.undefinedJ),
        ("constraints", J.obj [
          ("minimum", J.undefinedJ), ("maximum", J.undefinedJ), ("minLength", J.undefinedJ),
          ("maxLength", J.undefinedJ), ("pattern", J.undefinedJ), ("enum", J.undefinedJ),
          ("format", J.undefinedJ)]),
        ("pricing", J.null)]]),
      ("availability", J.obj [
        ("endpoint", .str a.availEndpoint), ("realTime", .bool a.realTime),
        ("cacheTimeoutSeconds", .num a.cacheTimeoutSeconds),
        ("advanceBookingDays", .num a.advanceBookingDays)]),
      ("cancellationPolicy", J.obj [
        ("type", .str a.cancelType), ("freeUntilHours", .num a.freeUntilHours),
        ("penaltyPercentage", .num a.penaltyPercentage),
        ("description", .str a.cancelDescription)]),
      ("payment", J.obj [
        ("methods", J.arr (a.methods.map J.str)), ("timing", .str a.timing),
        ("depositRequired", .bool false), ("depositPercentage", J.undefinedJ)]),
      ("policies", J.obj [
        ("modificationFee", .num a.modificationFee),
        ("noShowPenalty", .num a.noShowPenalty)])]]),
    ("integration", J.obj [
      ("mcp", J.obj [
        ("autoGenerate", .bool false), ("endpoint", .str a.mcpEndpoint)]),
      ("a2a", J.obj [
        ("autoGenerate", .bool false), ("discoveryUrl", .str a.a2aUrl)]),
      ("webhooks", J.obj [
        ("autoGenerate", .bool false), ("endpoint", .str a.webhookEndpoint),
        ("events", J.arr (a.events.map J.str))])]),
    ("ap2", J.obj [
      ("enabled", .bool true),
      ("verificationRequired", .bool a.verificationRequired),
      ("mandateExpiryHours", .num a.mandateExpiryHours)])]

/-- The field `k` holds the number `t`. -/
def jGetNum (j : J) (k : String) (t : Int) : Bool :=
  match j.get k with
  | .num m => m == t
  | _ => false

/-- Follows the words of the claim: every workflow step of the round-tripped
configuration carries the original field names (`timeoutMinutes`,
`retryAttempts`) with their original values. -/
def roundTripStepsRecovered (c : FormState) : Bool :=
  let rt := transformFromAPIFormat (transformToAPIFormat (toJ c))
  let rtServices := match rt.get "services" with
    | .arr l => l
    | _ => []
  (c.services.zip rtServices).all (fun sp =>
    let origSteps := match sp.1.workflow with
      | some w => w.steps
      | none => []
    let rtSteps := match (sp.2.get "workflow").get "steps" with
      | .arr l => l
      | _ => []
    (origSteps.zip rtSteps).all (fun stp =>
      (match stp.1.timeoutMinutes with
       | some t => jGetNum stp.2 "timeoutMinutes" t
       | none => true) &&
      (match stp.1.retryAttempts with
       | some r => jGetNum stp.2 "retryAttempts" r
       | none => true)))

/-- A concrete configuration that passes `validate` and has one workflow step
with `timeoutMinutes = 45`. -/
def c1Config : FormState := {
  businessInfo := {
    name := "Zion Adventure Lodge", type := "hospitality",
    description := none, establishedDate := none, website := none, capacity := none },
  location := {
    address := "123 Main St", city := "Springdale", state := "UT",
    postalCode := none, country := some "US", timezone := some "America/Denver",
    coordinates := none },
  contact := {
    email := "info@lodge.com", phone := none, secondaryEmail := none,
    businessHours := none },
  services := [c5BaseService],
  integration := some {
    mcp := some { autoGenerate := true, endpoint := none },
    a2a := some { autoGenerate := true, discoveryUrl := none },
    webhooks := some { autoGenerate := true, endpoint := none, events := none } },
  ap2 := some
    { enabled := false, verificationRequired := none, mandateExpiryHours := none } }

/-- Concrete clean schematic values. -/
def c1WitnessArgs : C1Args := {
  businessName := "Zion Adventure Lodge", businessType := "hospitality",
  businessDescription := "Lodge in Springdale", establishedDate := "2004-06-01",
  website := "https://lodge.example.com", capacity := 40,
  address := "123 Main St", city := "Springdale", state := "UT",
  postalCode := "84767", country := "US", timezone := "America/Denver",
  latitude := 37, longitude := -113,
  email := "info@lodge.com", phone := "+1-505-555-1234",
  secondaryEmail := "desk@lodge.com", businessHours := "8am-8pm",
  serviceId := "room_booking", serviceName := "Room Booking",
  serviceDescription := "Book a room", category := "accommodation",
  workflowPattern := "booking_confirmation_payment", stepName := "collect_details",
  stepDescription := "Collect details", stepRequired := true,
  timeoutMinutes := 45, retryAttempts := 2,
  paramName := "check_in_date", paramType := "string",
  paramDescription := "Date of check in", paramRequired := true,
  availEndpoint := "https://lodge.example.com/avail", realTime := true,
  cacheTimeoutSeconds := 600, advanceBookingDays := 30,
  cancelType := "flexible", cancelDescription := "Free cancellation up to 24 hours",
  freeUntilHours := 24, penaltyPercentage := 10,
  methods := ["credit_card"], timing := "at_booking",
  modificationFee := 20, noShowPenalty := 50,
  mcpEndpoint := "https://lodge.example.com/mcp",
  a2aUrl := "https://lodge.example.com/.well-known/agent.json",
  webhookEndpoint := "https://lodge.example.com/hooks",
  events := ["booking_confirmed"],
  verificationRequired := true, mandateExpiryHours := 24 }

/-! ## Computation lemmas for `J` -/

@[simp] theorem getEntries_nil (k : String) : J.getEntries [] k = .undefinedJ := rfl

@[simp] theorem getEntries_cons (k' : String) (v : J) (rest : List (String × J))
    (k : String) :
    J.getEntries ((k', v) :: rest) k = if k' = k then v else J.getEntries rest k := rfl

@[simp] theorem get_obj (fs : List (String × J)) (k : String) :
    (J.obj fs).get k = J.getEntries fs k := rfl

@[simp] theorem get_undefinedJ (k : String) : J.undefinedJ.get k = .undefinedJ := rfl

@[simp] theorem get_null (k : String) : J.null.get k = .undefinedJ := rfl

@[simp] theorem get_bool (b : Bool) (k : String) : (J.bool b).get k = .undefinedJ := rfl

@[simp] theorem get_num (n : Int) (k : String) : (J.num n).get k = .undefinedJ := rfl

@[simp] theorem get_str (s : String) (k : String) : (J.str s).get k = .undefinedJ := rfl

@[simp] theorem get_arr (l : List J) (k : String) : (J.arr l).get k = .undefinedJ := rfl

/-- Strict comparison of a boolean against `false`. -/
@[simp] theorem isFalse_bool (b : Bool) : (J.bool b).isFalse = !b := by
  cases b <;> rfl

/-- JavaScript `b || false` is `b` for booleans. -/
@[simp] theorem orJS_bool_false (b : Bool) :
    J.orJS (J.bool b) (J.bool false) = J.bool b := by
  cases b <;> rfl

/-! ## Claims -/

/-- C3: `sanitizePhone` formats 10-digit and 11-digit North-American numbers as
claimed, but on every other input it returns the original, unstripped input with
`+` unconditionally prepended — the `startsWith` guard inspects the digits-only
string, which can never contain a `+`.  The code contradicts its own comment
("return with + prefix if not present") and the spec. -/
theorem claim_C3_sanitizePhone :
    sanitizePhone "5055551234" = some "+1-505-555-1234" ∧
    sanitizePhone "15055551234" = some "+1-505-555-1234" ∧
    sanitizePhone "+44 20 7946 0958" = some "++44 20 7946 0958" ∧
    sanitizePhone "+44 20 7946 0958" ≠ some "+442079460958" :=
  ⟨rfl, rfl, rfl, by decide⟩

/-- C2 counterexample: the legal value `cacheTimeoutSeconds = 0` is not passed
through; the forward transform replaces it with the default 300 (and likewise
`freeUntilHours = 0` becomes 24), because the source uses falsy-coercing
`x || default` expressions. -/
theorem claim_C2_counterexample :
    (transformAvailability
        (availabilityToJ ⟨none, none, some 0, none⟩)).get "cache_timeout_seconds"
      = J.num 300 ∧
    J.num 300 ≠ J.num 0 ∧
    (transformCancellationPolicy
        (cancellationPolicyToJ ⟨"flexible", some 0, some 10, "d"⟩)).get "free_until_hours"
      = J.num 24 ∧
    J.num 24 ≠ J.num 0 :=
  ⟨rfl, fun h => absurd (J.num.inj h) (by decide), rfl,
   fun h => absurd (J.num.inj h) (by decide)⟩

/-- C2 amended: the forward transform injects the Domain-Schema default exactly
when the optional field is absent **or equal to the falsy value 0**; any other
present value passes through unchanged. -/
theorem claim_C2_amended (a : Availability) (p : CancellationPolicy) :
    ((transformAvailability (availabilityToJ a)).get "cache_timeout_seconds" =
      (match a.cacheTimeoutSeconds with
       | some v => if v = 0 then J.num 300 else J.num v
       | none => J.num 300)) ∧
    ((transformAvailability (availabilityToJ a)).get "advance_booking_days" =
      (match a.advanceBookingDays with
       | some v => if v = 0 then J.num 365 else J.num v
       | none => J.num 365)) ∧
    ((transformCancellationPolicy (cancellationPolicyToJ p)).get "free_until_hours" =
      (match p.freeUntilHours with
       | some v => if v = 0 then J.num 24 else J.num v
       | none => J.num 24)) := by
  refine ⟨?_, ?_, ?_⟩
  · cases h : a.cacheTimeoutSeconds with
    | none => simp [transformAvailability, availabilityToJ, h, optJ, J.orJS, J.truthy]
    | some v =>
      by_cases hv : v = 0 <;>
        simp [transformAvailability, availabilityToJ, h, optJ, J.orJS, J.truthy,
          hv, bne_iff_ne]
  · cases h : a.advanceBookingDays with
    | none => simp [transformAvailability, availabilityToJ, h, optJ, J.orJS, J.truthy]
    | some v =>
      by_cases hv : v = 0 <;>
        simp [transformAvailability, availabilityToJ, h, optJ, J.orJS, J.truthy,
          hv, bne_iff_ne]
  · cases h : p.freeUntilHours with
    | none =>
      simp [transformCancellationPolicy, cancellationPolicyToJ, h, optJ, J.orJS,
        J.truthy]
    | some v =>
      by_cases hv : v = 0 <;>
        simp [transformCancellationPolicy, cancellationPolicyToJ, h, optJ, J.orJS,
          J.truthy, hv, bne_iff_ne]

set_option maxRecDepth 4000 in
/-- C4: `validateComplete` is total on well-typed configurations (it is a plain
function in this embedding), `isValid` is true exactly when the error list is
empty, the error list is the in-order concatenation of every section walk (no
short-circuit between sections), and a configuration violating two independent
rules carries both messages in one result. -/
theorem claim_C4_validate_contract :
    (∀ c : FormState,
      ((validateComplete c).isValid = true ↔ (validateComplete c).errors = [])) ∧
    (∀ c : FormState,
      (validateComplete c).errors =
        validateBusinessInfo c.businessInfo ++ validateLocation c.location ++
        validateContact c.contact ++ validateServices c.services ++
        validateIntegration c.integration ++ validateAP2Config c.ap2) ∧
    ("Business name is required and must be 1-255 characters"
      ∈ (validateComplete c4Config).errors ∧
     "Service 1: Penalty percentage must be between 0 and 100"
      ∈ (validateComplete c4Config).errors) := by
  refine ⟨?_, ?_, ?_, ?_⟩
  · intro c
    simp [validateComplete, validateCompleteState, List.length_eq_zero]
  · intro c
    rfl
  · decide
  · decide

/-- C7: `transformToAPIFormat` is a pure function of its input in this
embedding; two calls on the same unchanged input produce the identical wire
payload object (with its fixed key ordering). -/
theorem claim_C7_toWireFormat_deterministic (p : J) (c : FormState) :
    transformToAPIFormat p = transformToAPIFormat p ∧
    transformToAPIFormat (toJ c) = transformToAPIFormat (toJ c) :=
  ⟨rfl, rfl⟩

/-- C9: `validateComplete` discards the accumulator left by any previous call
(`this.errors = []` at entry), so the result is a function of the configuration
alone: it is independent of the prior accumulator state, a repeated call
returns the same result, and the returned error list is always exactly the
errors of the present walk. -/
theorem claim_C9_fresh_accumulator (prev1 prev2 : List String) (c : FormState) :
    (validateCompleteState prev1 c).1 = (validateCompleteState prev2 c).1 ∧
    (validateCompleteState (validateCompleteState prev1 c).2 c).1
      = (validateCompleteState prev1 c).1 ∧
    (validateCompleteState prev1 c).1.errors = validateAll c ∧
    (validateCompleteState prev1 c).2 = validateAll c :=
  ⟨rfl, rfl, rfl, rfl⟩

/-- C10: the forward transform always emits `integration.webhook_events`:
declared events pass through unchanged (even an empty list), and when none are
declared the default triple is emitted in order — independently of the
`autoGenerate` flags and of the rest of the configuration. -/
theorem claim_C10_webhook_events (i : IntegrationConfig) (b : BusinessInfo) :
    (transformIntegration (integrationToJ i) (businessInfoToJ b)).get "webhook_events" =
      (match i.webhooks with
       | some w =>
          (match w.events with
           | some evs => J.arr (evs.map J.str)
           | none => J.arr [.str "booking_confirmed", .str "payment_processed",
               .str "booking_cancelled"])
       | none => J.arr [.str "booking_confirmed", .str "payment_processed",
           .str "booking_cancelled"]) := by
  cases hw : i.webhooks with
  | none => simp [transformIntegration, integrationToJ, hw, optJ, J.orJS, J.truthy]
  | some w =>
    cases he : w.events with
    | none =>
      simp [transformIntegration, integrationToJ, hw, he, webhooksToJ, optJ,
        J.orJS, J.truthy]
    | some evs =>
      simp [transformIntegration, integrationToJ, hw, he, webhooksToJ, optJ,
        J.orJS, J.truthy]


/-- Left-cancellation for string append (used to tell messages with a common
prefix apart). -/
theorem string_append_cancel_left {p a b : String} (h : p ++ a = p ++ b) : a = b := by
  apply String.ext
  have hd := congrArg String.data h
  rw [String.data_append, String.data_append] at hd
  exact List.append_cancel_left hd

/-- C8: the minLength/maxLength comparison fires exactly for string-typed
parameters with both bounds present and minLength > maxLength (so 10/5 is
reported and 5/10 is not), and the minimum/maximum comparison fires only for
number- or integer-typed parameters. -/
theorem claim_C8_type_conditional_constraints :
    (∀ (pp : String) (p : Parameter) (cst : ParamConstraints) (mn mx : Int),
      p.type = "string" → p.constraints = some cst →
      cst.minLength = some mn → cst.maxLength = some mx → mn > mx →
      (pp ++ ": Minimum length cannot be greater than maximum length")
        ∈ validateParameterConstraints p pp) ∧
    (∀ (pp : String) (p : Parameter) (cst : ParamConstraints) (mn mx : Int),
      p.constraints = some cst →
      cst.minLength = some mn → cst.maxLength = some mx → mn ≤ mx →
      (pp ++ ": Minimum length cannot be greater than maximum length")
        ∉ validateParameterConstraints p pp) ∧
    (∀ (pp : String) (p : Parameter),
      p.type ≠ "string" →
      (pp ++ ": Minimum length cannot be greater than maximum length")
        ∉ validateParameterConstraints p pp) ∧
    (∀ (pp : String) (p : Parameter),
      p.type ≠ "number" → p.type ≠ "integer" →
      (pp ++ ": Minimum cannot be greater than maximum")
        ∉ validateParameterConstraints p pp) ∧
    (∀ (pp : String) (p : Parameter) (cst : ParamConstraints) (mn mx : Int),
      (p.type = "number" ∨ p.type = "integer") → p.constraints = some cst →
      cst.minimum = some mn → cst.maximum = some mx → mn > mx →
      (pp ++ ": Minimum cannot be greater than maximum")
        ∈ validateParameterConstraints p pp) := by
  refine ⟨?_, ?_, ?_, ?_, ?_⟩
  · intro pp p cst mn mx ht hc hmn hmx hlt
    simp [validateParameterConstraints, hc, ht, hmn, hmx, hlt]
  · intro pp p cst mn mx hc hmn hmx hle hmem
    unfold validateParameterConstraints at hmem
    rw [hc] at hmem
    rw [List.mem_append] at hmem
    rcases hmem with h | h
    · split at h
      · split at h
        · split at h
          · rw [List.mem_singleton] at h
            exact absurd (string_append_cancel_left h) (by decide)
          · exact absurd h (List.not_mem_nil _)
        · exact absurd h (List.not_mem_nil _)
      · exact absurd h (List.not_mem_nil _)
    · split at h
      · rw [List.mem_append] at h
        rcases h with h | h
        · simp only [hmn, hmx] at h
          rw [if_neg (by omega)] at h
          exact absurd h (List.not_mem_nil _)
        · split at h
          · split at h
            · rw [List.mem_singleton] at h
              exact absurd (string_append_cancel_left h) (by decide)
            · exact absurd h (List.not_mem_nil _)
          · exact absurd h (List.not_mem_nil _)
      · exact absurd h (List.not_mem_nil _)
  · intro pp p ht hmem
    unfold validateParameterConstraints at hmem
    rcases hc : p.constraints with _ | cst <;> rw [hc] at hmem
    · simp at hmem
    · rw [List.mem_append] at hmem
      rcases hmem with h | h
      · split at h
        · split at h
          · split at h
            · rw [List.mem_singleton] at h
              exact absurd (string_append_cancel_left h) (by decide)
            · exact absurd h (List.not_mem_nil _)
          · exact absurd h (List.not_mem_nil _)
        · exact absurd h (List.not_mem_nil _)
      · simp [ht] at h
  · intro pp p ht1 ht2 hmem
    unfold validateParameterConstraints at hmem
    rcases hc : p.constraints with _ | cst <;> rw [hc] at hmem
    · simp at hmem
    · rw [List.mem_append] at hmem
      rcases hmem with h | h
      · simp [ht1, ht2] at h
      · split at h
        · rw [List.mem_append] at h
          rcases h with h | h
          · split at h
            · split at h
              · rw [List.mem_singleton] at h
                exact absurd (string_append_cancel_left h) (by decide)
              · exact absurd h (List.not_mem_nil _)
            · exact absurd h (List.not_mem_nil _)
          · split at h
            · split at h
              · rw [List.mem_singleton] at h
                exact absurd (string_append_cancel_left h) (by decide)
              · exact absurd h (List.not_mem_nil _)
            · exact absurd h (List.not_mem_nil _)
        · exact absurd h (List.not_mem_nil _)
  · intro pp p cst mn mx ht hc hmn hmx hlt
    rcases ht with ht | ht <;>
      simp [validateParameterConstraints, hc, ht, hmn, hmx, hlt]

/-- Witness for C8 at the concrete 10/5 and 5/10 inputs of the claim. -/
theorem claim_C8_witness :
    ("string" : String) = "string" ∧ (10 : Int) > 5 ∧ (5 : Int) ≤ 10 ∧
    (("P" ++ ": Minimum length cannot be greater than maximum length")
      ∈ validateParameterConstraints
        ⟨"check_in_date", "string", "d", none, none,
         some ⟨none, none, some 10, some 5, none, none, none⟩, none⟩ "P") ∧
    (("P" ++ ": Minimum length cannot be greater than maximum length")
      ∉ validateParameterConstraints
        ⟨"check_in_date", "string", "d", none, none,
         some ⟨none, none, some 5, some 10, none, none, none⟩, none⟩ "P") :=
  ⟨rfl, by decide, by decide,
   claim_C8_type_conditional_constraints.1 "P" _ _ 10 5 rfl rfl rfl rfl (by decide),
   claim_C8_type_conditional_constraints.2.1 "P" _ _ 5 10 rfl rfl rfl (by decide)⟩



/-- Every message of the webhook-event loop has the invalid-event shape. -/
theorem mem_validateEventList {x : String} {evs : List String}
    (h : x ∈ validateEventList evs) :
    ∃ ev, x = "Invalid webhook event \"" ++ ev ++ "\"" := by
  induction evs with
  | nil => simp [validateEventList] at h
  | cons ev rest ih =>
    rw [validateEventList] at h
    rw [List.mem_append] at h
    rcases h with h | h
    · split at h
      · rw [List.mem_singleton] at h
        exact ⟨ev, h⟩
      · exact absurd h (List.not_mem_nil _)
    · exact ih h

/-- An invalid-event message starts with the letter I, so it cannot equal a
message starting differently, whatever the event string is. -/
theorem eventMsg_ne {ev t : String} (ht : t.data.head? ≠ some 'I') :
    "Invalid webhook event \"" ++ ev ++ "\"" ≠ t := by
  intro he
  apply ht
  rw [← he]
  rw [String.data_append, String.data_append]
  rfl

theorem mem_validateIntegrationA2A {x : String} {oa : Option A2AConfig}
    (h : x ∈ validateIntegrationA2A oa) :
    x = "A2A discovery URL is required when auto-generate is disabled" ∨
    x = "A2A discovery URL must be a valid URL containing /.well-known/agent.json" := by
  rcases oa with _ | a
  · simp [validateIntegrationA2A] at h
  · simp only [validateIntegrationA2A] at h
    split at h
    · split at h
      · rw [List.mem_singleton] at h
        exact Or.inl h
      · split at h
        · rw [List.mem_singleton] at h
          exact Or.inl h
        · split at h
          · rw [List.mem_singleton] at h
            exact Or.inr h
          · exact absurd h (List.not_mem_nil _)
    · exact absurd h (List.not_mem_nil _)

theorem mem_validateIntegrationWebhooks {x : String} {ow : Option WebhooksConfig}
    (h : x ∈ validateIntegrationWebhooks ow) :
    x = "Webhook endpoint is required when auto-generate is disabled" ∨
    x = "Webhook endpoint must be a valid URL" := by
  rcases ow with _ | w
  · simp [validateIntegrationWebhooks] at h
  · simp only [validateIntegrationWebhooks] at h
    split at h
    · split at h
      · rw [List.mem_singleton] at h
        exact Or.inl h
      · split at h
        · rw [List.mem_singleton] at h
          exact Or.inl h
        · split at h
          · rw [List.mem_singleton] at h
            exact Or.inr h
          · exact absurd h (List.not_mem_nil _)
    · exact absurd h (List.not_mem_nil _)

theorem mem_validateIntegrationEvents {x : String} {ow : Option WebhooksConfig}
    (h : x ∈ validateIntegrationEvents ow) :
    ∃ ev, x = "Invalid webhook event \"" ++ ev ++ "\"" := by
  rcases ow with _ | w
  · simp [validateIntegrationEvents] at h
  · simp only [validateIntegrationEvents] at h
    split at h
    · exact mem_validateEventList h
    · exact absurd h (List.not_mem_nil _)

/-- Neither MCP message can come from the A2A, webhook-endpoint or
webhook-event blocks. -/
theorem not_mem_rest_C6 {x : String} {oa : Option A2AConfig} {ow : Option WebhooksConfig}
    (hx1 : x = "MCP endpoint is required when auto-generate is disabled" ∨
           x = "MCP endpoint must be a valid URL ending with /mcp")
    (h : x ∈ validateIntegrationA2A oa ++ (validateIntegrationWebhooks ow ++
          validateIntegrationEvents ow)) : False := by
  rw [List.mem_append, List.mem_append] at h
  rcases h with h | h | h
  · rcases mem_validateIntegrationA2A h with h | h <;> rcases hx1 with hx | hx <;>
      rw [hx] at h <;> exact absurd h (by decide)
  · rcases mem_validateIntegrationWebhooks h with h | h <;> rcases hx1 with hx | hx <;>
      rw [hx] at h <;> exact absurd h (by decide)
  · obtain ⟨ev, hev⟩ := mem_validateIntegrationEvents h
    rcases hx1 with hx | hx <;> rw [hx] at hev <;>
      exact absurd hev.symm (eventMsg_ne (by decide))

/-- C6: with `autoGenerate = false` and an absent or empty MCP endpoint,
`validateIntegration` reports the MCP-endpoint-required error; with
`autoGenerate = true` it reports no MCP-endpoint error whatever the endpoint
holds; and a supplied non-empty endpoint (autoGenerate false) is reported
exactly when it is not a valid URL ending with /mcp. -/
theorem claim_C6_mcp_conditional :
    (∀ (oa : Option A2AConfig) (ow : Option WebhooksConfig) (ep : Option String),
      (ep = none ∨ ep = some "") →
      "MCP endpoint is required when auto-generate is disabled"
        ∈ validateIntegration (some ⟨some ⟨false, ep⟩, oa, ow⟩)) ∧
    (∀ (oa : Option A2AConfig) (ow : Option WebhooksConfig) (ep : Option String),
      "MCP endpoint is required when auto-generate is disabled"
        ∉ validateIntegration (some ⟨some ⟨true, ep⟩, oa, ow⟩) ∧
      "MCP endpoint must be a valid URL ending with /mcp"
        ∉ validateIntegration (some ⟨some ⟨true, ep⟩, oa, ow⟩)) ∧
    (∀ (oa : Option A2AConfig) (ow : Option WebhooksConfig) (e : String),
      e ≠ "" →
      ("MCP endpoint must be a valid URL ending with /mcp"
        ∈ validateIntegration (some ⟨some ⟨false, some e⟩, oa, ow⟩)
        ↔ (isValidURL e && strEndsWith e "/mcp") = false)) := by
  refine ⟨?_, ?_, ?_⟩
  · intro oa ow ep hep
    rcases hep with h | h <;> subst h <;>
      simp [validateIntegration, validateIntegrationMCP]
  · intro oa ow ep
    constructor <;> intro hmem <;>
      · simp only [validateIntegration, validateIntegrationMCP, Bool.not_true,
          List.append_assoc] at hmem
        rw [if_neg (by simp)] at hmem
        rw [List.nil_append] at hmem
        exact not_mem_rest_C6 (by simp) hmem
  · intro oa ow e he
    constructor
    · intro hmem
      by_cases hv : (isValidURL e && strEndsWith e "/mcp") = false
      · exact hv
      · exfalso
        simp only [validateIntegration, validateIntegrationMCP, Bool.not_false,
          if_true, List.append_assoc] at hmem
        rw [if_neg (by simp [he]), if_neg (by simp_all)] at hmem
        rw [List.nil_append] at hmem
        exact not_mem_rest_C6 (by simp) hmem
    · intro hv
      simp only [validateIntegration, validateIntegrationMCP, Bool.not_false,
        if_true, List.append_assoc]
      rw [if_neg (by simp [he]), if_pos (by simp [hv])]
      simp

/-- Witness for C6 at concrete integration configurations. -/
theorem claim_C6_witness :
    ((none : Option String) = none ∨ (none : Option String) = some "") ∧
    ("https://x.example.com/api" ≠ "") ∧
    ("MCP endpoint is required when auto-generate is disabled"
      ∈ validateIntegration (some ⟨some ⟨false, none⟩, none, none⟩)) ∧
    ("MCP endpoint is required when auto-generate is disabled"
      ∉ validateIntegration (some ⟨some ⟨true, some "anything"⟩, none, none⟩)) ∧
    ("MCP endpoint must be a valid URL ending with /mcp"
      ∈ validateIntegration (some ⟨some ⟨false, some "https://x.example.com/api"⟩, none, none⟩)) :=
  ⟨Or.inl rfl, by decide,
   claim_C6_mcp_conditional.1 none none none (Or.inl rfl),
   (claim_C6_mcp_conditional.2.1 none none (some "anything")).1,
   (claim_C6_mcp_conditional.2.2 none none "https://x.example.com/api"
      (by decide)).mpr (by decide)⟩

/-- With a valid id and valid basics, `validateServiceBasics` reduces to the
duplicate check against the running set. -/
theorem validateServiceBasics_of_ok {s : ServiceConfig} {pfx : String}
    {seen : List String}
    (hid : idOk s = true)
    (hname : isValidString s.name SERVICE_NAME_RULE = true)
    (hdesc : isValidString s.description SERVICE_DESCRIPTION_RULE = true)
    (hcat : isRequiredString s.category = true) :
    validateServiceBasics s pfx seen =
      (if seen.contains s.id then
        [pfx ++ ": Service ID \"" ++ s.id ++ "\" is already used"] else [],
       if seen.contains s.id then seen else s.id :: seen) := by
  rw [idOk, Bool.and_eq_true] at hid
  by_cases hc : s.id ∈ seen <;>
    simp [validateServiceBasics, hid.1, hid.2, hname, hdesc, hcat, hc]

/-- On otherwise-clean services the service walk emits exactly the duplicate-id
messages of the running-set model. -/
theorem validateServiceList_eq_specDup :
    ∀ (ss : List ServiceConfig) (i : Nat) (seen : List String),
      servicesCleanFrom ss i = true →
      validateServiceList ss i seen = specDuplicateIdMsgs ss i seen := by
  intro ss
  induction ss with
  | nil => intro i seen _; rfl
  | cons s rest ih =>
    intro i seen h
    rw [servicesCleanFrom, Bool.and_eq_true, Bool.and_eq_true] at h
    obtain ⟨⟨hclean, hid⟩, hrest⟩ := h
    rw [serviceCleanAt] at hclean
    simp only [Bool.and_eq_true, beq_iff_eq] at hclean
    obtain ⟨⟨⟨⟨⟨⟨⟨⟨hwf, hpar⟩, hav⟩, hcp⟩, hpay⟩, hpol⟩, hname⟩, hdesc⟩, hcat⟩ := hclean
    rw [validateServiceList]
    rw [validateServiceBasics_of_ok hid hname hdesc hcat]
    rw [hwf, hpar, hav, hcp, hpay, hpol]
    rw [specDuplicateIdMsgs]
    by_cases hc : seen.contains s.id
    · rw [if_pos hc, if_pos hc, if_pos hc]
      rw [ih (i + 1) seen hrest]
      simp [specDupMsg]
    · rw [if_neg hc, if_neg hc, if_neg hc]
      rw [ih (i + 1) (s.id :: seen) hrest]
      simp

/-- Once the id is in the running set, every copy reports one duplicate. -/
theorem specDup_replicate_len {s : ServiceConfig} :
    ∀ (n : Nat) (i : Nat) (seen : List String), seen.contains s.id = true →
      (specDuplicateIdMsgs (List.replicate n s) i seen).length = n := by
  intro n
  induction n with
  | zero => intro i seen _; rfl
  | succ m ih =>
    intro i seen hc
    rw [List.replicate_succ, specDuplicateIdMsgs, if_pos hc]
    rw [List.length_cons, ih (i + 1) seen hc]

/-- C5: on otherwise-clean services, `validateServices` reports exactly the
duplicate-id errors of the incremental running-set model: two services sharing
one (pattern-valid) id yield exactly one duplicate error, attributed to the
second service; pairwise-distinct ids yield none; and n copies of one service
yield n - 1 duplicate errors (none for the first occurrence, one per later
occurrence). -/
theorem claim_C5_duplicate_service_ids :
    (∀ ss : List ServiceConfig,
      servicesCleanFrom ss 0 = true → ss ≠ [] → ss.length ≤ 20 →
      validateServices ss = specDuplicateIdMsgs ss 0 []) ∧
    (∀ s1 s2 : ServiceConfig,
      servicesCleanFrom [s1, s2] 0 = true → s1.id = s2.id →
      validateServices [s1, s2] = [specDupMsg 1 s2.id]) ∧
    (∀ s1 s2 : ServiceConfig,
      servicesCleanFrom [s1, s2] 0 = true → s1.id ≠ s2.id →
      validateServices [s1, s2] = []) ∧
    (∀ (n : Nat) (s : ServiceConfig),
      servicesCleanFrom (List.replicate n s) 0 = true → 1 ≤ n → n ≤ 20 →
      (validateServices (List.replicate n s)).length = n - 1) := by
  have hmain : ∀ ss : List ServiceConfig,
      servicesCleanFrom ss 0 = true → ss ≠ [] → ss.length ≤ 20 →
      validateServices ss = specDuplicateIdMsgs ss 0 [] := by
    intro ss h hne hlen
    rw [validateServices]
    rw [if_neg (by simp [hne])]
    rw [if_neg (by omega)]
    rw [List.nil_append]
    exact validateServiceList_eq_specDup ss 0 [] h
  refine ⟨hmain, ?_, ?_, ?_⟩
  · intro s1 s2 h hid
    rw [hmain [s1, s2] h (by simp) (by norm_num)]
    rw [specDuplicateIdMsgs, if_neg (by simp)]
    rw [specDuplicateIdMsgs, if_pos (by simp [hid])]
    rfl
  · intro s1 s2 h hid
    rw [hmain [s1, s2] h (by simp) (by norm_num)]
    rw [specDuplicateIdMsgs, if_neg (by simp)]
    rw [specDuplicateIdMsgs, if_neg (by simp; exact fun hh => hid hh.symm)]
    rfl
  · intro n s h h1 h20
    cases n with
    | zero => omega
    | succ m =>
      rw [hmain _ h (by simp [List.replicate_succ]) (by simpa using h20)]
      rw [List.replicate_succ, specDuplicateIdMsgs, if_neg (by simp)]
      rw [specDup_replicate_len m (0 + 1) [s.id] (by simp)]
      omega



set_option maxRecDepth 8000 in
/-- Witness for C5 at concrete service pairs. -/
theorem claim_C5_witness :
    servicesCleanFrom [c5BaseService, c5ServiceB] 0 = true ∧
    c5BaseService.id = c5ServiceB.id ∧
    validateServices [c5BaseService, c5ServiceB] =
      ["Service 2: Service ID \"room_booking\" is already used"] ∧
    servicesCleanFrom [c5BaseService, c5ServiceC] 0 = true ∧
    c5BaseService.id ≠ c5ServiceC.id ∧
    validateServices [c5BaseService, c5ServiceC] = [] :=
  ⟨by decide, rfl,
   claim_C5_duplicate_service_ids.2.1 c5BaseService c5ServiceB (by decide) rfl,
   by decide, by decide,
   claim_C5_duplicate_service_ids.2.2.1 c5BaseService c5ServiceC (by decide) (by decide)⟩

/-- C1 amended: on a validated-shape configuration with no falsy field values,
the round trip recovers the business, location, contact, parameter,
availability, cancellation, payment, policies, integration and AP2 fields with
their original names and values, but each workflow step is returned still in
wire format, so the original step field names are NOT recovered. -/
theorem claim_C1_amended (a : C1Args) (h : c1ArgsOk a = true) :
    transformFromAPIFormat (transformToAPIFormat (toJ (mkC1Config a))) =
      c1Expected a ∧
    roundTripStepsRecovered (mkC1Config a) = false := by
  simp only [c1ArgsOk, Bool.and_eq_true, and_assoc, beq_iff_eq] at h
  obtain ⟨h1, h2, h3, h4, h5, h6, h7, h8, h9, h10, h11, h12, h13, h14, h15, h16,
    h17, h18, h19, h20, h21, h22, h23, h24, h25⟩ := h
  have hmain : transformFromAPIFormat (transformToAPIFormat (toJ (mkC1Config a))) =
      c1Expected a := by
    simp [mkC1Config, toJ, businessInfoToJ, locationToJ, contactToJ, coordinatesToJ,
      serviceToJ, workflowToJ, stepToJ, parameterToJ, availabilityToJ,
      cancellationPolicyToJ, paymentToJ, servicePoliciesToJ, mcpToJ, a2aToJ,
      webhooksToJ, integrationToJ, ap2ToJ, optJ,
      transformToAPIFormat, transformContactInfo, transformLocation,
      transformServices, transformService, transformWorkflowSteps, transformStep,
      transformParameters, transformOneParameter, transformParameterConstraints,
      transformParameterPricing, transformAvailability, transformCancellationPolicy,
      transformPaymentConfig, transformServicePolicies, transformIntegration,
      getMCPEndpoint, getA2ADiscoveryUrl, getWebhookEndpoint, transformAP2Config,
      sanitizePhoneJ, transformFromAPIFormat, transformServiceFromAPI,
      transformParametersFromAPI, c1Expected,
      J.orJS, J.orUndefinedJ, J.truthy, J.isUndefinedJ,
      h1, h2, h3, h4, h5, h6, h7, h8, h9, h10, h11, h12, h13, h14, h15, h16,
      h17, h18, h19, h20, h21, h22, h23, h24, h25]
    cases a.paramRequired <;> simp
  refine ⟨hmain, ?_⟩
  simp only [roundTripStepsRecovered]
  rw [hmain]
  simp [mkC1Config, c1Expected, jGetNum]

set_option maxRecDepth 8000 in
/-- C1 counterexample: `c1Config` passes `validate`, yet the round trip does
not recover the workflow steps with their original field names and values. -/
theorem claim_C1_counterexample :
    (validateComplete c1Config).isValid = true ∧
    roundTripStepsRecovered c1Config = false :=
  ⟨by decide, by decide⟩

set_option maxRecDepth 8000 in
/-- Witness for the amended C1 at concrete values. -/
theorem claim_C1_witness :
    c1ArgsOk c1WitnessArgs = true ∧
    (transformFromAPIFormat (transformToAPIFormat (toJ (mkC1Config c1WitnessArgs))) =
       c1Expected c1WitnessArgs ∧
     roundTripStepsRecovered (mkC1Config c1WitnessArgs) = false) :=
  ⟨by decide, claim_C1_amended c1WitnessArgs (by decide)⟩

end BAIS
